import Mathlib

/-!
Shallow embedding, in Lean 4, of the reconciliation and orchestration engine
of the inetdoc-api repository (lab-startup.py, switch-conf.py,
utils/utilities.py, utils/ovs_utils.py), together with theorems settling the
frozen claims about its specification.

Conventions of the embedding:
* Python functions become Lean functions over explicit inputs; the outcome of
  an external command (pgrep, ovs-vsctl, cp, ...) is an explicit argument.
* `sys.exit(n)` and uncaught Python exceptions are modelled by the `PyResult`
  sum; a run of a whole entry point additionally records the ordered list of
  external side effects it performed (`Ev` events) so that statements about
  "no mutation before X" can be made.
* Machine integers are `Int`/`Nat` (Python integers are unbounded, so no
  wrap-around modelling is needed).
-/

namespace Inetdoc

/-- Uncaught Python exception kinds that the embedded code can raise. -/
inductive PyErr where
  | attributeError
  | keyError (key : String)
  | indexError
  | typeError
  | nameError
  | stopIteration
  | systemExit (msg : String)
  deriving DecidableEq, Repr

/-- Result of running a piece of Python code: a value, a `sys.exit(code)`,
or an uncaught exception. -/
inductive PyResult (α : Type) where
  | ok (a : α)
  | exited (code : Nat)
  | raised (e : PyErr)
  deriving DecidableEq, Repr

/-! ## Liveness probes (utils/utilities.py `is_vm_running` / `is_tap_in_use`,
identical code in lab-startup.py)

Both probes call `run_subprocess(["pgrep", ...], capture_output=True,
check=False)`.  With `check=False`, `subprocess.run` never raises
`CalledProcessError`, so the only failure `run_subprocess` can turn into a
hard error is `FileNotFoundError` (the `pgrep` binary itself is missing),
which prints a message and calls `sys.exit(1)`.  Otherwise the probe sees the
completed process: its return code and its captured stdout (a `str`, because
`text=True` is passed). -/

/-- Outcome of the attempt to run `pgrep`: either the binary is missing
(`FileNotFoundError` inside `run_subprocess`) or it ran to completion with a
return code and captured stdout. -/
inductive PgrepOutcome where
  | toolMissing
  | exited (rc : Nat) (stdout : String)
  deriving DecidableEq, Repr

/-- Whitespace-token accumulator for Python `str.split()` (no argument):
runs of non-whitespace characters become tokens, whitespace never yields an
empty token. -/
def wsTokensAux (acc : List Char) : List Char → List (List Char)
  | [] => if acc.isEmpty then [] else [acc.reverse]
  | c :: cs =>
      if c.isWhitespace then
        if acc.isEmpty then wsTokensAux [] cs
        else acc.reverse :: wsTokensAux [] cs
      else wsTokensAux (c :: acc) cs

/-- Python `str.split()` with no argument: split on runs of whitespace and
drop empty fields. -/
def pySplitWs (s : String) : List String :=
  (wsTokensAux [] s.data).map fun l => String.mk l

/-- Field accumulator for Python `str.split(sep)` with a one-character
separator. -/
def splitCharListAux (sep : Char) (acc : List Char) : List Char → List (List Char)
  | [] => [acc.reverse]
  | c :: cs =>
      if c = sep then acc.reverse :: splitCharListAux sep [] cs
      else splitCharListAux sep (c :: acc) cs

/-- Python `str.split(sep)` for a one-character separator: fields between
separators, empty fields preserved, `""` yields `[""]`. -/
def pySplitOn (s : String) (sep : Char) : List String :=
  (splitCharListAux sep [] s.data).map fun l => String.mk l

/-- Python `str.startswith(pre)`. -/
def pyStartsWith (s pre : String) : Bool :=
  pre.data.isPrefixOf s.data

/-- Value of a decimal digit character, `none` otherwise. -/
def pyDigitVal? (c : Char) : Option Nat :=
  if 48 ≤ c.toNat ∧ c.toNat ≤ 57 then some (c.toNat - 48) else none

/-- Accumulate decimal digits; any non-digit fails. -/
def pyNatDigitsGo (acc : Nat) : List Char → Option Nat
  | [] => some acc
  | c :: cs =>
      match pyDigitVal? c with
      | some d => pyNatDigitsGo (acc * 10 + d) cs
      | none => none

/-- A non-empty all-digit character list as a natural number. -/
def pyNatDigits? : List Char → Option Nat
  | [] => none
  | l => pyNatDigitsGo 0 l

/-- utils/utilities.py lines 288-321 (the same code is lab-startup.py lines
603-636): `is_vm_running(vm)`.  `run_subprocess` is inlined as the
`PgrepOutcome` argument.  On return code 0 the source evaluates
`vm_pid.stdout.decode("utf-8")`; `vm_pid.stdout` is already a `str` because
the subprocess was run with `text=True`, and `str` has no `decode` method, so
this path raises `AttributeError`. -/
def is_vm_running (pgrep : PgrepOutcome) : PyResult Bool :=
  match pgrep with
  | .toolMissing => .exited 1
  | .exited rc _ =>
      if rc ≠ 0 then .ok false
      else .raised .attributeError

/-- utils/utilities.py lines 324-356 (the same code is lab-startup.py lines
639-671): `is_tap_in_use(tapnum)`.  On return code 0 the source takes
`tap_pid.stdout.split()[0]` (no `.decode` here), which raises `IndexError`
when stdout holds no token, and otherwise reports the tap as in use. -/
def is_tap_in_use (pgrep : PgrepOutcome) : PyResult Bool :=
  match pgrep with
  | .toolMissing => .exited 1
  | .exited rc out =>
      if rc ≠ 0 then .ok false
      else
        match pySplitWs out with
        | [] => .raised .indexError
        | _ :: _ => .ok true

/-- Claim-side predicate (from the spec wording, not from the source): the
process table could not be queried.  Per the documented `pgrep` exit-status
contract this is the case when the `pgrep` binary cannot be run at all, or
when `pgrep` terminates with a failure status of 2 (syntax error) or 3
(fatal error, e.g. the process table could not be read); status 0 means some
process matched and status 1 means no process matched. -/
def pgrepQueryFailed : PgrepOutcome → Prop
  | .toolMissing => True
  | .exited rc _ => 2 ≤ rc

instance : DecidablePred pgrepQueryFailed := by
  intro o
  cases o with
  | toolMissing => exact .isTrue trivial
  | exited rc out => exact inferInstanceAs (Decidable (2 ≤ rc))

/-! ## Identity derivation (utils/utilities.py `build_mac`, identical code in
lab-startup.py) -/

/-- One lowercase hexadecimal digit, as Python renders it (defined for
`n < 16`). -/
def hexChar (n : Nat) : Char :=
  if n < 10 then Char.ofNat (48 + n) else Char.ofNat (87 + n)

/-- Python `f"{n:02x}"` for `0 ≤ n < 256`: exactly two lowercase hex digits
(zero padded).  Every value the source formats this way is `tapnum // 256` or
`tapnum % 256` with `tapnum` in `[0, 65535]`, hence below 256. -/
def hex02 (n : Nat) : String :=
  String.mk [hexChar (n / 16 % 16), hexChar (n % 16)]

/-- utils/utilities.py lines 117-143 (the same code is lab-startup.py lines
432-458): `build_mac(tapnum)`. -/
def build_mac (tapnum : Nat) : String :=
  "b8:ad:ca:fe:" ++ hex02 (tapnum / 256) ++ ":" ++ hex02 (tapnum % 256)

/-- Numeric value of a lowercase hex digit character (left inverse of
`hexChar` on `[0, 16)`). -/
def hexVal (c : Char) : Nat :=
  if c.toNat < 58 then c.toNat - 48 else c.toNat - 87

/-- Read the 16-bit suffix back out of a MAC string of the shape produced by
`build_mac`. -/
def macSuffixVal (s : String) : Nat :=
  match s.data.drop 12 with
  | [a, b, _, c, d] =>
      ((hexVal a) * 16 + hexVal b) * 256 + ((hexVal c) * 16 + hexVal d)
  | _ => 0

/-! ## VM declarations (lab-startup.py data model)

The YAML dictionary for one virtual machine is embedded as a structure whose
always-present keys (`vm_name`, `os`, `master_image`, `force_copy`) are plain
fields and whose variant-specific keys are `Option` fields (`none` = key
absent from the dictionary; a Python `KeyError` is raised when an absent key
is subscripted).  Payloads that the engine copies wholesale without
inspecting them (user entries, package names, write-files entries, run
commands) are kept as opaque strings. -/

/-- One VRF definition inside a netplan `network.vrfs` mapping: its key and
its `interfaces` list (`vm["cloud_init"]["netplan"]["network"]["vrfs"]`). -/
structure VrfDef where
  name : String
  interfaces : List String
  deriving DecidableEq, Repr

/-- The `network` value of a netplan document; only the `vrfs` key is ever
inspected by the engine. -/
structure NetworkDoc where
  vrfs : Option (List VrfDef)
  deriving DecidableEq, Repr

/-- A netplan document (`cloud_init.netplan`); the source subscripts its
`network` key. -/
structure NetplanDoc where
  network : Option NetworkDoc
  deriving DecidableEq, Repr

/-- The optional `cloud_init` block of a linux VM declaration
(lab-startup.py linux_schema, lines 263-275). -/
structure CloudInit where
  force_seed : Option Bool
  users : Option (List String)
  hostname : Option String
  packages : Option (List String)
  netplan : Option NetplanDoc
  write_files : Option (List String)
  runcmd : Option (List String)
  deriving DecidableEq, Repr

/-- One storage device declaration (`devices.storage` entry). -/
structure StorageDev where
  dev_name : String
  size : String
  bus : String
  addr : Option Int
  deriving DecidableEq, Repr

/-- The optional `devices` dictionary of a VM declaration; the engine only
subscripts its `storage` key. -/
structure Devices where
  storage : Option (List StorageDev)
  deriving DecidableEq, Repr

/-- One VM declaration from the `kvm.vms` list. -/
structure Vm where
  vm_name : String
  os : String
  master_image : String
  force_copy : Bool
  memory : Option Int
  tapnum : Option Int
  tapnumlist : Option (List Int)
  cloud_init : Option CloudInit
  devices : Option Devices
  deriving DecidableEq, Repr

/-- lab-startup.py lines 255-278 `linux_schema`: required `memory ≥ 512` and
`tapnum`; a `tapnumlist` key is an extra key and rejected; `cloud_init` and
`devices` are optional (their shapes are enforced by the embedding types). -/
def linux_schema_ok (vm : Vm) : Bool :=
  (match vm.memory with | some m => 512 ≤ m | none => false)
    && vm.tapnum.isSome && vm.tapnumlist.isNone

/-- lab-startup.py lines 290-300 `windows_schema`: like linux but with no
`cloud_init` key allowed. -/
def windows_schema_ok (vm : Vm) : Bool :=
  (match vm.memory with | some m => 512 ≤ m | none => false)
    && vm.tapnum.isSome && vm.tapnumlist.isNone && vm.cloud_init.isNone

/-- lab-startup.py lines 280-288 `iosxe_schema`: required `tapnumlist`; any
of `memory`, `tapnum`, `cloud_init`, `devices` is an extra key and
rejected. -/
def iosxe_schema_ok (vm : Vm) : Bool :=
  vm.tapnumlist.isSome && vm.memory.isNone && vm.tapnum.isNone
    && vm.cloud_init.isNone && vm.devices.isNone

/-- lab-startup.py lines 303-343 `check_yaml_declaration(vm)`: dispatch on
`vm["os"]`; a `SchemaError` (or an unknown OS) is caught, reported and turned
into `sys.exit(1)`. -/
def check_yaml_declaration (vm : Vm) : PyResult Unit :=
  if vm.os = "linux" then
    if linux_schema_ok vm then .ok () else .exited 1
  else if vm.os = "windows" then
    if windows_schema_ok vm then .ok () else .exited 1
  else if vm.os = "iosxe" then
    if iosxe_schema_ok vm then .ok () else .exited 1
  else .exited 1

/-! ## Duplicate tap detection (lab-startup.py `check_unique_tapnums`) -/

/-- How `check_unique_tapnums` can fail: the run is aborted on a duplicate
tap number (`sys.exit(1)` after printing the tap number and the name of the
VM at which the duplicate was detected), or a variant-required key is
missing from a declaration (Python `KeyError`). -/
inductive TapCheckErr where
  | dup (tapnum : Int) (owner : String)
  | missingKey (key : String)
  deriving DecidableEq, Repr

/-- The owner names the duplicate-tap error message carries: the source
interpolates exactly one VM name (`vm['vm_name']` of the declaration at
which the duplicate was detected) into the message. -/
def dupOwnersNamed : TapCheckErr → List String
  | .dup _ owner => [owner]
  | .missingKey _ => []

/-- The duplicate-tap error message exactly as the source prints it. -/
def dupErrMsg (tapnum : Int) (owner : String) : String :=
  "Error: Duplicate tapnum " ++ toString tapnum ++ " found for " ++ owner

/-- Inner loop of the iosxe branch of `check_unique_tapnums`: add each entry
of `vm["tapnumlist"]` to the seen set, failing on the first entry already
seen (Python uses a `set`; a list with membership checks is equivalent). -/
def tapAddList (name : String) (seen : List Int) : List Int → Except TapCheckErr (List Int)
  | [] => .ok seen
  | t :: ts =>
      if t ∈ seen then .error (.dup t name)
      else tapAddList name (t :: seen) ts

/-- Main loop of lab-startup.py lines 346-398 `check_unique_tapnums`: one
shared seen-set across the entire declaration set; linux/windows contribute
`tapnum`, iosxe contributes every entry of `tapnumlist`, any other OS value
contributes nothing. -/
def tapCheckGo (seen : List Int) : List Vm → Except TapCheckErr Unit
  | [] => .ok ()
  | vm :: rest =>
      if vm.os = "linux" ∨ vm.os = "windows" then
        match vm.tapnum with
        | none => .error (.missingKey "tapnum")
        | some t =>
            if t ∈ seen then .error (.dup t vm.vm_name)
            else tapCheckGo (t :: seen) rest
      else if vm.os = "iosxe" then
        match vm.tapnumlist with
        | none => .error (.missingKey "tapnumlist")
        | some l =>
            match tapAddList vm.vm_name seen l with
            | .error e => .error e
            | .ok seen2 => tapCheckGo seen2 rest
      else tapCheckGo seen rest

/-- lab-startup.py lines 346-398 `check_unique_tapnums(data)` over the
`kvm.vms` list. -/
def check_unique_tapnums (vms : List Vm) : Except TapCheckErr Unit :=
  tapCheckGo [] vms

/-- The tap numbers one declaration contributes to the duplicate check. -/
def vmTaps (vm : Vm) : List Int :=
  if vm.os = "linux" ∨ vm.os = "windows" then vm.tapnum.toList
  else if vm.os = "iosxe" then vm.tapnumlist.getD []
  else []

/-- All tap numbers of the declaration set, in traversal order. -/
def allTaps : List Vm → List Int
  | [] => []
  | vm :: rest => vmTaps vm ++ allTaps rest

/-- Well-formedness needed for the duplicate check not to raise `KeyError`:
each linux/windows declaration carries `tapnum`, each iosxe declaration
carries `tapnumlist`. -/
def VmTapWF (vm : Vm) : Prop :=
  (vm.os = "linux" ∨ vm.os = "windows" → vm.tapnum ≠ none) ∧
  (vm.os = "iosxe" → vm.tapnumlist ≠ none)

instance (vm : Vm) : Decidable (VmTapWF vm) := by
  unfold VmTapWF
  infer_instance

/-- Concrete linux declaration with tap 1 (first owner of the C2
counterexample). -/
def c2VmA : Vm :=
  ⟨"vm-a", "linux", "debian.qcow2", false, some 1024, some 1, none, none, none⟩

/-- Concrete linux declaration also claiming tap 1 (second owner of the C2
counterexample). -/
def c2VmB : Vm :=
  ⟨"vm-b", "linux", "debian.qcow2", false, some 1024, some 1, none, none, none⟩

/-- Concrete linux declaration with tap 5, duplicate-free on its own. -/
def c2VmC : Vm :=
  ⟨"vm-c", "linux", "debian.qcow2", false, some 1024, some 5, none, none, none⟩

/-! ## Runs with observable side effects

A run of an entry point is modelled as the ordered list of external side
effects it performed together with its outcome: normal return,
`sys.exit(code)`, or an uncaught exception. -/

/-- Abnormal termination of a run. -/
inductive Halt where
  | exit (code : Nat)
  | exc (e : PyErr)
  deriving DecidableEq, Repr

instance {ε α : Type} [DecidableEq ε] [DecidableEq α] : DecidableEq (Except ε α) :=
  fun x y =>
    match x, y with
    | .ok a, .ok b =>
        if h : a = b then isTrue (congrArg Except.ok h)
        else isFalse fun hc => h (Except.ok.inj hc)
    | .error e, .error f =>
        if h : e = f then isTrue (congrArg Except.error h)
        else isFalse fun hc => h (Except.error.inj hc)
    | .ok _, .error _ => isFalse fun hc => Except.noConfusion hc
    | .error _, .ok _ => isFalse fun hc => Except.noConfusion hc

/-- A run producing events of type `ε` and a value of type `α` (or halting). -/
structure Run (ε : Type) (α : Type) where
  events : List ε
  result : Except Halt α

instance {ε : Type} : Monad (Run ε) where
  pure a := ⟨[], .ok a⟩
  bind x f :=
    match x.result with
    | .error h => ⟨x.events, .error h⟩
    | .ok a =>
        let y := f a
        ⟨x.events ++ y.events, y.result⟩

/-- Record one external side effect. -/
def emit {ε : Type} (e : ε) : Run ε Unit := ⟨[e], .ok ()⟩

/-- `sys.exit(code)`. -/
def haltExit {ε α : Type} (code : Nat) : Run ε α := ⟨[], .error (.exit code)⟩

/-- An uncaught Python exception terminating the run. -/
def haltExc {ε α : Type} (e : PyErr) : Run ε α := ⟨[], .error (.exc e)⟩

/-- Embed the result of effect-free Python code into a run. -/
def liftPy {ε α : Type} : PyResult α → Run ε α
  | .ok a => ⟨[], .ok a⟩
  | .exited code => ⟨[], .error (.exit code)⟩
  | .raised e => ⟨[], .error (.exc e)⟩

/-! ## Switch-port declarations and reconciliation (switch-conf.py) -/

/-- One switch-port declaration (switch-conf.py port_schema; the `type`
field, always the literal `OVSPort`, is validated but never read by the
reconciliation code and is omitted). -/
structure PortDecl where
  name : String
  vlan_mode : String
  tag : Option Int
  trunks : Option (List Int)
  deriving DecidableEq, Repr

/-- One switch entry of the declaration: its name and its port list. -/
structure SwDecl where
  name : String
  ports : List PortDecl
  deriving DecidableEq, Repr

/-- The `ovs.switches` list of the switch declaration file. -/
structure SwitchConfig where
  switches : List SwDecl
  deriving DecidableEq, Repr

/-- Python `str.strip(chars)`: remove leading and trailing characters drawn
from the given set. -/
def pyStripChars (cs : List Char) (s : String) : String :=
  String.mk (((s.data.dropWhile (· ∈ cs)).reverse.dropWhile (· ∈ cs)).reverse)

/-- Python `int(s)` on a string: tolerate surrounding whitespace and an
optional sign, fail on anything non-numeric (`ValueError` becomes
`none`). -/
def pyInt? (s : String) : Option Int :=
  let l := ((s.data.dropWhile Char.isWhitespace).reverse.dropWhile
    Char.isWhitespace).reverse
  match l with
  | '-' :: rest => (pyNatDigits? rest).map fun n => -(n : Int)
  | '+' :: rest => (pyNatDigits? rest).map fun n => (n : Int)
  | rest => (pyNatDigits? rest).map fun n => (n : Int)

/-- switch-conf.py lines 160-162 `get_port_parameters(switch, switch_config)`:
the source subscripts the switches list with the boolean expression
`"name" == switch` — index 1 when the switch is literally named `name`,
index 0 otherwise; an out-of-range index raises `IndexError`. -/
def get_port_parameters (switch : String) (cfg : SwitchConfig) : PyResult (List PortDecl) :=
  match cfg.switches.get? (if "name" = switch then 1 else 0) with
  | some sw => .ok sw.ports
  | none => .raised .indexError

/-- switch-conf.py lines 144-148 `get_switch_names(switch_config)`: the loop
rebinds `sw_list` on every switch entry, so only the last entry's
comma-split name survives; an empty switches list leaves `sw_list` unbound
(`UnboundLocalError`, modelled as `nameError`). -/
def get_switch_names (cfg : SwitchConfig) : PyResult (List String) :=
  match cfg.switches.getLast? with
  | none => .raised .nameError
  | some sw => .ok (pySplitOn sw.name ',')

/-- switch-conf.py lines 192-200 `get_port_trunks(port_name)` applied to the
(stripped) stdout of `ovs-vsctl get port <p> trunks`: `"[]"` parses to the
empty list; otherwise brackets are stripped, the rest is split on commas,
empty items are dropped, and each item is parsed with `int(...)`; a parse
failure (`ValueError`) is caught and turns the result into `None`. -/
def get_port_trunks (raw : String) : Option (List Int) :=
  if raw = "[]" then some []
  else
    (((pySplitOn (pyStripChars ['[', ']'] raw) ',').filter
      fun v => v ≠ "").mapM pyInt?)

/-- The live state of one port as read by switch-conf.py: the stripped
stdout of the three `ovs-vsctl get port <p> {vlan_mode, tag, trunks}`
invocations (`run_ovs_command` returns `stdout.strip()`). -/
structure LivePort where
  vlan_mode_raw : String
  tag_raw : String
  trunks_raw : String
  deriving DecidableEq, Repr

/-- switch-conf.py lines 208-258, the per-port diff of
`configure_switch_ports`: collect the `ovs-vsctl set port` parameters for
one declared port against its live state — a mode change (with the stale
attribute of the previous mode cleared in the same batch), then the tag
comparison (access mode, against `str(port["tag"])`), or the trunk-list
comparison (trunk mode, Python list equality against `port["trunks"]`,
rendered by joining the declared list in declaration order).  A declared
access port without `tag`, or trunk port without `trunks`, raises
`KeyError` at the subscript. -/
def port_ovs_params (port : PortDecl) (live : LivePort) : PyResult (List String) :=
  let current_mode := pyStripChars ['"'] live.vlan_mode_raw
  let modeParams :=
    if current_mode ≠ port.vlan_mode then
      ["vlan_mode=" ++ port.vlan_mode] ++
        (if port.vlan_mode = "access" then ["trunks=[]"]
         else if port.vlan_mode = "trunk" then ["tag=[]"] else [])
    else []
  if port.vlan_mode = "access" then
    match port.tag with
    | none => .raised (.keyError "tag")
    | some t =>
        .ok (modeParams ++
          (if live.tag_raw ≠ toString t then ["tag=" ++ toString t] else []))
  else if port.vlan_mode = "trunk" then
    match port.trunks with
    | none => .raised (.keyError "trunks")
    | some ts =>
        .ok (modeParams ++
          (if get_port_trunks live.trunks_raw ≠ some ts then
            ["trunks=[" ++ String.intercalate "," (ts.map toString) ++ "]"]
          else []))
  else .ok modeParams

/-- Observable side effects of a switch-reconciliation run. -/
inductive SwEv where
  | portToBridge (port : String)
  | portMissing (port : String)
  | setPort (port : String) (params : List String)
  deriving DecidableEq, Repr

/-- External world as seen by switch-conf.py: which bridge owns a port
(`none` = `ovs-vsctl port-to-br` fails, upon which `run_ovs_command` prints
the error and exits the whole program), the live state of each port, and the
return code of the batched `set port` command.  The three `get` reads are
modelled as always succeeding — they run only after the port's existence was
just confirmed; were one to fail, `run_ovs_command` would likewise exit the
program. -/
structure SwEnv where
  portBridge : String → Option String
  liveOf : String → LivePort
  setRc : String → List String → Nat

/-- The per-port loop of switch-conf.py lines 204-266
`configure_switch_ports`: resolve the owning bridge (a failing
`port-to-br` exits the program from inside `run_ovs_command`); a port owned
by a different bridge is reported and the program exits (`sys.exit(1)`);
otherwise the staged parameters, if any, are applied as one batched `set
port` command (whose failure also exits the program). -/
def portLoop (env : SwEnv) (switch : String) : List PortDecl → Run SwEv Unit
  | [] => pure ()
  | port :: rest => do
      emit (.portToBridge port.name)
      match env.portBridge port.name with
      | none => haltExit 1
      | some br =>
          if br = switch then do
            let params ← liftPy (port_ovs_params port (env.liveOf port.name))
            if params ≠ [] then do
              emit (.setPort port.name params)
              if env.setRc port.name params ≠ 0 then haltExit 1 else pure ()
            else pure ()
            portLoop env switch rest
          else do
            emit (.portMissing port.name)
            haltExit 1

/-- switch-conf.py lines 204-266 `configure_switch_ports(switch,
switch_config)`. -/
def configure_switch_ports (env : SwEnv) (switch : String) (cfg : SwitchConfig) : Run SwEv Unit := do
  let ports ← liftPy (get_port_parameters switch cfg)
  portLoop env switch ports

/-- Declared trunk port `[10, 20]` for the C5 counterexample. -/
def c5Port : PortDecl := ⟨"p1", "trunk", none, some [10, 20]⟩

/-- Live trunk port whose trunk list is `[20, 10]` — the same set in a
different order. -/
def c5Live : LivePort := ⟨"trunk", "[]", "[20, 10]"⟩

/-- Declared trunk port `[20, 10]`, to exhibit the rendering order. -/
def c5PortB : PortDecl := ⟨"p1", "trunk", none, some [20, 10]⟩

/-- Live trunk port whose trunk list is `[10, 20]`. -/
def c5LiveB : LivePort := ⟨"trunk", "[]", "[10, 20]"⟩

/-- Access port `pA` with tag 10, declared under the first switch entry. -/
def c8PortA : PortDecl := ⟨"pA", "access", some 10, none⟩

/-- Access port `pB` with tag 20, declared under the second switch entry. -/
def c8PortB : PortDecl := ⟨"pB", "access", some 20, none⟩

/-- A two-switch declaration whose first switch is literally named `name`. -/
def c8Cfg : SwitchConfig := ⟨[⟨"name", [c8PortA]⟩, ⟨"sw1", [c8PortB]⟩]⟩

/-! ## The two transport bindings of the tap configurator -/

/-- The live configuration of one tap port as returned by
`OVSDBManager.get_tap` (utils/ovs_utils.py lines 62-73): the row's
`vlan_mode`, `tag` (the empty OVSDB set for an untagged port, modelled as
`none`) and `trunks` columns. -/
structure TapConf where
  vlan_mode : String
  tag : Option Int
  trunks : List Int
  deriving DecidableEq, Repr

/-- One attribute write issued through the OVSDB connection
(`self.ovs.db_set("Port", tap_name, (field, value))`). -/
inductive TapWrite where
  | setMode (m : String)
  | setTag (t : Int)
  | setTrunks (l : List Int)
  deriving DecidableEq, Repr

/-- utils/ovs_utils.py lines 75-102 `OVSDBManager.set_tap(tap_name,
vlan_mode, tag, trunks)`: with no current configuration (`get_tap` returned
`{}`) it raises `SystemExit`; otherwise it issues a `vlan_mode` write when
the mode differs, a `tag` write when the tag differs and the requested mode
is `access`, and a `trunks` write when the trunk list differs and the
requested mode is the literal `"trunks"`. -/
def set_tap (cur : Option TapConf) (vlan_mode : String) (tag : Int) (trunks : List Int) : PyResult (List TapWrite) :=
  match cur with
  | none => .raised (.systemExit "tap not found")
  | some c =>
      .ok ((if c.vlan_mode ≠ vlan_mode then [.setMode vlan_mode] else []) ++
        (if c.tag ≠ some tag ∧ vlan_mode = "access" then [.setTag tag] else []) ++
        (if c.trunks ≠ trunks ∧ vlan_mode = "trunks" then [.setTrunks trunks] else []))

/-- Python `f"tag={tag}"` over an optional integer: `None` renders as the
literal `None`. -/
def pyStrOfOptInt : Option Int → String
  | some t => toString t
  | none => "None"

/-- Python `f"trunks={trunks}"` over an optional integer list: Python's
`str` of a list separates items with `", "`. -/
def pyStrOfOptIntList : Option (List Int) → String
  | some l => "[" ++ String.intercalate ", " (l.map toString) ++ "]"
  | none => "None"

/-- utils/utilities.py lines 572-596 `configure_tap(name, mode, tag,
trunks)`: builds the single `ovs-vsctl set port` argument list.  It never
reads the live port state.  For mode `access` the local `trunks` variable is
reassigned to the string `"[]"`; the branch guarded by `mode == "trunks"`
would raise `TypeError` (it joins a list of ints, or `None`, with
`",".join`); for mode `trunk` neither branch fires and `tag`/`trunks`
render as their Python `f`-string forms.  All three attribute assignments
are always appended. -/
def configure_tap (name mode : String) (tag : Option Int) (trunks : Option (List Int)) : PyResult (List String) :=
  let args := ["sudo", "ovs-vsctl", "set", "port", name, "vlan_mode=" ++ mode]
  if mode = "access" then
    .ok (args ++ ["tag=" ++ pyStrOfOptInt tag, "trunks=[]"])
  else if mode = "trunks" then
    .raised .typeError
  else
    .ok (args ++ ["tag=" ++ pyStrOfOptInt tag, "trunks=" ++ pyStrOfOptIntList trunks])

/-- The attribute (column) a database write touches. -/
def tapWriteField : TapWrite → String
  | .setMode _ => "vlan_mode"
  | .setTag _ => "tag"
  | .setTrunks _ => "trunks"

/-- The attributes assigned by a command-line `set port` argument list. -/
def cliAttrFields (args : List String) : List String :=
  args.filterMap fun s =>
    if pyStartsWith s "vlan_mode=" then some "vlan_mode"
    else if pyStartsWith s "tag=" then some "tag"
    else if pyStartsWith s "trunks=" then some "trunks"
    else none

/-- Live tap state identical to the declared state of the C6
counterexample: access mode, tag 10, no trunks. -/
def c6Cur : TapConf := ⟨"access", some 10, []⟩

/-! ## The lab-startup provisioning pipeline (lab-startup.py `main`)

`Path.home() / "masters"` is abstracted as the path string `~/masters`; the
claims do not depend on its value. -/

/-- lab-startup.py line 50 `MASTER_DIR`. -/
def MASTER_DIR : String := "~/masters"

/-- lab-startup.py line 52 `OVMF_CODE`. -/
def OVMF_CODE : String := "/usr/share/OVMF/OVMF_CODE_4M.secboot.fd"

/-- lab-startup.py line 53 `OVMF_VARS`. -/
def OVMF_VARS : String := "/usr/share/OVMF/OVMF_VARS_4M.ms.fd"

/-- Python `str.endswith(suffix)`. -/
def pyEndsWith (s suf : String) : Bool :=
  suf.data.isSuffixOf s.data

/-- lab-startup.py lines 401-429 `get_image_format(image)` (identical code
in utils/utilities.py): `re.search` against the anchored patterns
`\.qcow2$` and `\.raw$`; an unsupported extension prints an error and exits. -/
def get_image_format (image : String) : PyResult String :=
  if pyEndsWith image ".qcow2" then .ok "qcow2"
  else if pyEndsWith image ".raw" then .ok "raw"
  else .exited 1

/-- Subscripting a Python dictionary key held as an `Option`: `KeyError`
when absent. -/
def pyGet {α : Type} (o : Option α) (key : String) : PyResult α :=
  match o with
  | some a => .ok a
  | none => .raised (.keyError key)

/-- Observable side effects of a lab-startup run.  Probe and report events
are reads; the rest mutate external state. -/
inductive Ev where
  | probeVm (name : String)
  | probeTap (tapnum : Int)
  | dupTapError (tapnum : Int) (owner : String)
  | schemaError (vm : String)
  | copyImageFile (src dst : String)
  | linkUefiCode
  | copyUefiVars (vm : String)
  | createDevImage (name : String)
  | buildSeedImage (name : String)
  | launchVm (cmd : List String)
  deriving DecidableEq, Repr

/-- Which events mutate external state (image copy, firmware staging,
device-file creation, seed creation, process launch). -/
def Ev.isMutation : Ev → Bool
  | .copyImageFile _ _ => true
  | .linkUefiCode => true
  | .copyUefiVars _ => true
  | .createDevImage _ => true
  | .buildSeedImage _ => true
  | .launchVm _ => true
  | _ => false

/-- External world as seen by lab-startup.py: the `pgrep` outcomes for the
VM-name and tap probes, the filesystem (`os.path.exists` / `os.path.islink`)
and the return codes of the checked external commands it runs (`cp`, `ln`,
`qemu-img`, `cloud-localds`, the startup scripts; `run_subprocess` with
`check=True` turns a nonzero code into `sys.exit(1)`).  `createdExists`
answers the `os.path.exists` re-check performed right after `qemu-img
create`. -/
structure Env where
  pgrepVm : String → PgrepOutcome
  pgrepTap : Int → PgrepOutcome
  fileExists : String → Bool
  isLink : String → Bool
  runCmdRc : List String → Nat
  createdExists : String → Bool

/-- lab-startup.py lines 526-562 `copy_image(master_image, vm_image,
force)`: skip when the destination exists and `force` is false; a missing
master image exits; otherwise `cp` runs (its failure exits). -/
def copy_image (env : Env) (master_image vm_image : String) (force : Bool) : Run Ev Unit := do
  let fmt ← liftPy (get_image_format master_image)
  let dst := vm_image ++ "." ++ fmt
  if env.fileExists dst ∧ ¬force then pure ()
  else
    let src := MASTER_DIR ++ "/" ++ master_image
    if ¬env.fileExists src then haltExit 1
    else do
      emit (.copyImageFile src dst)
      if env.runCmdRc ["cp", src, dst] ≠ 0 then haltExit 1 else pure ()

/-- lab-startup.py lines 565-600 `copy_uefi_files(vm)`: the OVMF master
files must exist; the shared code symlink and the per-VM variables copy are
created only when absent. -/
def copy_uefi_files (env : Env) (vm : String) : Run Ev Unit := do
  if ¬env.fileExists OVMF_CODE then haltExit 1
  else if ¬env.fileExists OVMF_VARS then haltExit 1
  else do
    (if ¬env.fileExists "OVMF_CODE.fd" ∧ ¬env.isLink "OVMF_CODE.fd" then do
        emit .linkUefiCode
        if env.runCmdRc ["ln", "-sf", OVMF_CODE, "OVMF_CODE.fd"] ≠ 0 then haltExit 1
        else pure ()
      else pure ())
    if ¬env.fileExists (vm ++ "_OVMF_VARS.fd") then do
      emit (.copyUefiVars vm)
      if env.runCmdRc ["cp", OVMF_VARS, vm ++ "_OVMF_VARS.fd"] ≠ 0 then haltExit 1
      else pure ()
    else pure ()

/-- lab-startup.py lines 674-727 `build_device_cmd(store, dev_filename,
dev_format, dev_id, dev_idx, dev_addr)`: the bus-specific QEMU fragments;
an unsupported bus yields the empty list. -/
def build_device_cmd (store : StorageDev) (dev_filename dev_format dev_id : String) (dev_idx : Nat) (dev_addr : Int) : List String :=
  if store.bus = "virtio" then
    ["-drive",
      "file=" ++ dev_filename ++ ",format=" ++ dev_format ++
        ",media=disk,if=none,id=" ++ dev_id ++ ",cache=writeback",
      "-device",
      "virtio-blk-pci,drive=" ++ dev_id ++ ",scsi=off,config-wce=off"]
  else if store.bus = "scsi" then
    ["-device",
      "virtio-scsi-pci,id=scsi" ++ toString dev_idx ++ ",bus=pcie.0",
      "-drive",
      "file=" ++ dev_filename ++ ",format=" ++ dev_format ++
        ",media=disk,if=none,id=" ++ dev_id ++ ",cache=writeback",
      "-device",
      "scsi-hd,drive=" ++ dev_id ++ ",channel=0,scsi-id=" ++
        toString dev_idx ++ ",lun=" ++ toString dev_addr]
  else if store.bus = "nvme" then
    ["-drive",
      "file=" ++ dev_filename ++ ",format=" ++ dev_format ++
        ",media=disk,if=none,id=" ++ dev_id ++ ",cache=writeback",
      "-device",
      "nvme,drive=" ++ dev_id ++ ",serial=feedcafe" ++ toString dev_idx]
  else []

/-- lab-startup.py lines 730-780 `create_device_image_file(store)`: an
existing backing file is kept; otherwise `qemu-img create` runs and the
file's existence is re-checked (still absent exits). -/
def create_device_image_file (env : Env) (store : StorageDev) : Run Ev Unit := do
  let dev_format ← liftPy (get_image_format store.dev_name)
  if env.fileExists store.dev_name then pure ()
  else do
    emit (.createDevImage store.dev_name)
    if env.runCmdRc ["qemu-img", "create", "-f", dev_format, "-o",
        "lazy_refcounts=on,extended_l2=on", store.dev_name, store.size] ≠ 0 then
      haltExit 1
    else if env.createdExists store.dev_name then pure ()
    else haltExit 1

/-- The cloud-init user-data dictionary built by
`create_cloud_init_seed_img`: each of the five keys copied from the
declaration when present (the `else` arm of that loop is dead code). -/
structure UserData where
  users : Option (List String)
  hostname : Option String
  packages : Option (List String)
  runcmd : Option (List String)
  write_files : Option (List String)
  deriving DecidableEq, Repr

/-- lab-startup.py lines 963-977: copy the present cloud-init keys into the
user-data dictionary. -/
def mkUserData (ci : CloudInit) : UserData :=
  { users := ci.users, hostname := ci.hostname, packages := ci.packages,
    runcmd := ci.runcmd, write_files := ci.write_files }

/-- lab-startup.py lines 787-790 `networkd_wait_online_override_content`. -/
def networkd_wait_online_override_content : String :=
  "[Service]\nExecStart=\nExecStart=/lib/systemd/systemd-networkd-wait-online -o routable -i VRF_INTERFACE"

/-- lab-startup.py lines 792-794 `networkd_wait_online_override_file`. -/
def networkd_wait_online_override_file : String :=
  "/etc/systemd/system/systemd-networkd-wait-online.service.d/override.conf"

/-- lab-startup.py lines 798-822 `vrf_ssh_service_content`. -/
def vrf_ssh_service_content : String :=
  "[Unit]\nDescription=OpenBSD Secure Shell server\nDocumentation=man:sshd(8) man:sshd_config(5)\nAfter=network.target nss-user-lookup.target auditd.service\nConditionPathExists=!/etc/ssh/sshd_not_to_be_run\n\n[Service]\nEnvironmentFile=-/etc/default/ssh\nExecStartPre=/usr/sbin/ip vrf exec mgmt-vrf mkdir -p /run/sshd\nExecStartPre=/usr/sbin/ip vrf exec mgmt-vrf chmod 0755 /run/sshd\nExecStartPre=/usr/sbin/ip vrf exec mgmt-vrf /usr/sbin/sshd -t\nExecStart=/usr/sbin/ip vrf exec mgmt-vrf    /usr/sbin/sshd\nExecReload=/usr/sbin/ip vrf exec mgmt-vrf   /usr/sbin/sshd -t\nExecReload=/bin/kill -HUP ${MAINPID}\nKillMode=process\nRestart=on-failure\nRestartPreventExitStatus=255\nType=notify\nRuntimeDirectory=sshd\nRuntimeDirectoryMode=0755\n\n[Install]\nWantedBy=multi-user.target\nAlias=vrf-sshd.service"

/-- lab-startup.py line 824 `vrf_ssh_service_file`. -/
def vrf_ssh_service_file : String := "/etc/systemd/system/vrf-ssh.service"

/-- lab-startup.py lines 827-903 `create_vrf_userdata(vm, userdata)`: take
the first VRF's interface list (an empty `vrfs` mapping raises
`StopIteration` at `next(iter(...))`; an empty interface list exits), then
append the VRF run commands to the user-data `runcmd` list. -/
def create_vrf_userdata (vm : Vm) (userdata : UserData) : PyResult UserData :=
  match vm.cloud_init with
  | none => .raised (.keyError "cloud_init")
  | some ci =>
    match ci.netplan with
    | none => .raised (.keyError "netplan")
    | some np =>
      match np.network with
      | none => .raised (.keyError "network")
      | some nw =>
        match nw.vrfs with
        | none => .raised (.keyError "vrfs")
        | some [] => .raised .stopIteration
        | some (v :: _) =>
          match v.interfaces with
          | [] => .exited 1
          | iface :: _ =>
            let override :=
              networkd_wait_online_override_content.replace "VRF_INTERFACE" iface
            .ok { userdata with runcmd := some ((userdata.runcmd.getD []) ++
              ["mkdir -p /etc/systemd/system/systemd-networkd-wait-online.service.d",
               "cat <<\x27EOF\x27 >" ++ networkd_wait_online_override_file ++
                 "\n" ++ override ++ "\nEOF",
               "cat <<\x27EOF\x27 >" ++ vrf_ssh_service_file ++ "\n" ++
                 vrf_ssh_service_content ++ "\nEOF",
               "systemctl daemon-reload",
               "systemctl restart systemd-networkd-wait-online.service",
               "systemctl enable vrf-ssh.service",
               "systemctl start vrf-ssh.service",
               "mv /etc/resolv.conf /etc/resolv.conf.bak",
               "echo \x27nameserver 172.16.0.2\x27 > /etc/resolv.conf",
               "systemctl stop systemd-resolved",
               "systemctl disable systemd-resolved"]) }

/-- lab-startup.py lines 906-1010 `create_cloud_init_seed_img(vm)`: `None`
without a cloud-init block; an existing seed image is reused unless
`force_seed`; otherwise the metadata document is built first — subscripting
`vm["cloud_init"]["hostname"]` — then the user-data (with the VRF
augmentation when the netplan declares VRFs) and the optional
network-config, and `cloud-localds` builds the seed (the documents are
written into a temporary directory, so only the `cloud-localds` invocation
is an observable mutation; its file arguments are modelled by their base
names). -/
def create_cloud_init_seed_img (env : Env) (vm : Vm) : Run Ev (Option String) :=
  match vm.cloud_init with
  | none => pure none
  | some ci =>
    let seed_img := vm.vm_name ++ "-seed.img"
    if ¬(ci.force_seed.getD false) ∧ env.fileExists seed_img then
      pure (some seed_img)
    else do
      let _hostname ← liftPy (pyGet ci.hostname "hostname")
      let userdata := mkUserData ci
      let _userdata ← (match ci.netplan with
        | some np =>
            match np.network with
            | none => haltExc (.keyError "network")
            | some nw =>
                if nw.vrfs.isSome then liftPy (create_vrf_userdata vm userdata)
                else pure userdata
        | none => pure userdata)
      emit (.buildSeedImage seed_img)
      let seedCmd := ["cloud-localds", seed_img, "user-data", "meta-data"] ++
        (if ci.netplan.isSome then ["--network-config", "network-config"] else [])
      if env.runCmdRc seedCmd ≠ 0 then haltExit 1
      else pure (some seed_img)

/-- The storage-device loop of `build_qemu_cmd` (lab-startup.py lines
1056-1071): create each backing file and accumulate the bus-specific
fragments in declaration order, with a 1-based running index. -/
def devLoop (env : Env) (idx : Nat) : List StorageDev → Run Ev (List String)
  | [] => pure []
  | store :: rest => do
      create_device_image_file env store
      let dev_format ← liftPy (get_image_format store.dev_name)
      let dev_id := "drive" ++ toString idx
      let dev_addr := store.addr.getD 0
      let cmds := build_device_cmd store store.dev_name dev_format dev_id idx dev_addr
      let restCmds ← devLoop env (idx + 1) rest
      pure (cmds ++ restCmds)

/-- lab-startup.py lines 1014-1104 `build_qemu_cmd(vm)`: assemble the
startup-script invocation per OS family; linux additionally synthesizes the
cloud-init seed and appends its drive; an OS that matches no branch leaves
`cmd` unbound (`UnboundLocalError`, modelled as `nameError`). -/
def build_qemu_cmd (env : Env) (vm : Vm) : Run Ev (List String) :=
  if vm.os = "linux" then do
    let fmt ← liftPy (get_image_format vm.master_image)
    let vm_file := vm.vm_name ++ "." ++ fmt
    let mem ← liftPy (pyGet vm.memory "memory")
    let tap ← liftPy (pyGet vm.tapnum "tapnum")
    let baseCmd := [MASTER_DIR ++ "/scripts/ovs-startup.sh", vm_file,
      toString mem, toString tap, "linux"]
    let cmd ← (match vm.devices with
      | some d => do
          let storage ← liftPy (pyGet d.storage "storage")
          if storage ≠ [] then do
            let devCmds ← devLoop env 1 storage
            pure (baseCmd ++ devCmds)
          else pure baseCmd
      | none => pure baseCmd)
    let seed ← create_cloud_init_seed_img env vm
    match seed with
    | some s => pure (cmd ++ ["-drive", "file=" ++ s ++ ",format=raw,if=virtio"])
    | none => pure cmd
  else if vm.os = "windows" then do
    let fmt ← liftPy (get_image_format vm.master_image)
    let vm_file := vm.vm_name ++ "." ++ fmt
    let mem ← liftPy (pyGet vm.memory "memory")
    let tap ← liftPy (pyGet vm.tapnum "tapnum")
    let baseCmd := [MASTER_DIR ++ "/scripts/ovs-startup.sh", vm_file,
      toString mem, toString tap, "windows"]
    match vm.devices with
    | some d => do
        let storage ← liftPy (pyGet d.storage "storage")
        if storage ≠ [] then do
          let devCmds ← devLoop env 1 storage
          pure (baseCmd ++ devCmds)
        else pure baseCmd
    | none => pure baseCmd
  else if vm.os = "iosxe" then do
    let fmt ← liftPy (get_image_format vm.master_image)
    let vm_file := vm.vm_name ++ "." ++ fmt
    let taps ← liftPy (pyGet vm.tapnumlist "tapnumlist")
    pure ([MASTER_DIR ++ "/scripts/ovs-iosxe.sh", vm_file] ++ taps.map toString)
  else haltExc .nameError

/-- The iosxe tap-availability loop of `main` (lab-startup.py lines
1154-1157): a busy tap exits the whole run. -/
def tapLoop (env : Env) : List Int → Run Ev Unit
  | [] => pure ()
  | t :: ts => do
      emit (.probeTap t)
      let busy ← liftPy (is_tap_in_use (env.pgrepTap t))
      if busy then haltExit 1 else tapLoop env ts

/-- The per-VM loop of lab-startup.py lines 1146-1167 `main`: probe the VM
name (a VM found running is skipped — though in reality that probe raises
`AttributeError`, see `is_vm_running`); validate the declaration
(`sys.exit(1)` on violation); probe the declared taps (`sys.exit(1)` when
busy); copy the image; stage UEFI files; build the command and launch
(`run_subprocess` with `check=True`, so a failing launch exits the run). -/
def vmLoop (env : Env) : List Vm → Run Ev Unit
  | [] => pure ()
  | vm :: rest => do
      emit (.probeVm vm.vm_name)
      let running ← liftPy (is_vm_running (env.pgrepVm vm.vm_name))
      if running then
        vmLoop env rest
      else do
        (match check_yaml_declaration vm with
          | .ok () => pure ()
          | .exited n => do
              emit (.schemaError vm.vm_name)
              haltExit n
          | .raised e => haltExc e)
        (if vm.os = "linux" ∨ vm.os = "windows" then do
            let tap ← liftPy (pyGet vm.tapnum "tapnum")
            emit (.probeTap tap)
            let busy ← liftPy (is_tap_in_use (env.pgrepTap tap))
            if busy then haltExit 1 else pure ()
          else if vm.os = "iosxe" then do
            let taps ← liftPy (pyGet vm.tapnumlist "tapnumlist")
            tapLoop env taps
          else pure ())
        copy_image env vm.master_image vm.vm_name vm.force_copy
        copy_uefi_files env vm.vm_name
        let cmd ← build_qemu_cmd env vm
        emit (.launchVm cmd)
        if env.runCmdRc cmd ≠ 0 then haltExit 1 else pure ()
        vmLoop env rest

/-- lab-startup.py lines 1107-1167 `main` over the parsed `kvm.vms` list:
the duplicate-tap check runs first (its failure prints the duplicate and
exits before the loop), then each VM is processed in order. -/
def lab_startup_main (env : Env) (vms : List Vm) : Run Ev Unit :=
  match check_unique_tapnums vms with
  | .error (.dup t o) => ⟨[.dupTapError t o], .error (.exit 1)⟩
  | .error (.missingKey k) => ⟨[], .error (.exc (.keyError k))⟩
  | .ok () => vmLoop env vms

/-- A valid linux declaration (tap 1, memory 1024) for the C3
counterexample. -/
def c3VmOk : Vm :=
  ⟨"vm-ok", "linux", "debian.qcow2", false, some 1024, some 1, none, none, none⟩

/-- A schema-invalid linux declaration (memory 256 < 512) for the C3
counterexample. -/
def c3VmBad : Vm :=
  ⟨"vm-bad", "linux", "debian.qcow2", false, some 256, some 2, none, none, none⟩

/-- Environment of the C3 counterexample: nothing is running, no tap is in
use, only the master image and the OVMF master files exist, every external
command succeeds. -/
def c3Env : Env where
  pgrepVm _ := .exited 1 ""
  pgrepTap _ := .exited 1 ""
  fileExists s :=
    s = OVMF_CODE ∨ s = OVMF_VARS ∨ s = MASTER_DIR ++ "/debian.qcow2"
  isLink _ := false
  runCmdRc _ := 0
  createdExists _ := true

/-- First linux declaration of the C4 counterexample; its tap 7 is busy. -/
def c4Vm1 : Vm :=
  ⟨"vm-t1", "linux", "debian.qcow2", false, some 1024, some 7, none, none, none⟩

/-- Second linux declaration of the C4 counterexample; its tap 8 is free. -/
def c4Vm2 : Vm :=
  ⟨"vm-t2", "linux", "debian.qcow2", false, some 1024, some 8, none, none, none⟩

/-- Environment of the C4 counterexample (VM side): no VM runs, tap 7 is
held by pid 321, every other tap is free. -/
def c4Env : Env where
  pgrepVm _ := .exited 1 ""
  pgrepTap t := if t = 7 then .exited 0 "321\n" else .exited 1 ""
  fileExists _ := false
  isLink _ := false
  runCmdRc _ := 0
  createdExists _ := true

/-- Switch declaration of the C4 counterexample (port side): one switch
`sw0` with ports `p1` and `p2`. -/
def c4SwCfg : SwitchConfig :=
  ⟨[⟨"sw0", [⟨"p1", "access", some 10, none⟩, ⟨"p2", "access", some 10, none⟩]⟩]⟩

/-- Switch environment of the C4 counterexample: `p1` belongs to a different
bridge, `p2` belongs to `sw0` and is already converged. -/
def c4SwEnv : SwEnv where
  portBridge p := if p = "p1" then some "other" else some "sw0"
  liveOf _ := ⟨"access", "10", "[]"⟩
  setRc _ _ := 0

/-- Cloud-init block of the C10 witness: schema-valid, no `hostname` key. -/
def c10Ci : CloudInit := ⟨none, none, none, none, none, none, none⟩

/-- Linux declaration of the C10 witness, carrying `c10Ci`. -/
def c10Vm : Vm :=
  ⟨"vm-ci", "linux", "debian.qcow2", false, some 1024, some 3, none, some c10Ci, none⟩

/-- Environment of the C10 witness: no seed image exists. -/
def c10Env : Env where
  pgrepVm _ := .exited 1 ""
  pgrepTap _ := .exited 1 ""
  fileExists _ := false
  isLink _ := false
  runCmdRc _ := 0
  createdExists _ := true

/-! ## Theorems -/

theorem hexVal_hexChar {n : Nat} (h : n < 16) : hexVal (hexChar n) = n := by
  interval_cases n <;> decide

theorem hex02_data (n : Nat) :
    (hex02 n).data = [hexChar (n / 16 % 16), hexChar (n % 16)] := rfl

theorem macSuffixVal_build_mac {n : Nat} (h : n < 65536) :
    macSuffixVal (build_mac n) = n := by
  have hhi : n / 256 < 256 := by omega
  have hlo : n % 256 < 256 := by omega
  have h1 : n / 256 / 16 % 16 = n / 256 / 16 := by omega
  have h2 : n / 256 / 16 < 16 := by omega
  have h3 : n / 256 % 16 < 16 := by omega
  have h4 : n % 256 / 16 % 16 = n % 256 / 16 := by omega
  have h5 : n % 256 / 16 < 16 := by omega
  have h6 : n % 256 % 16 < 16 := by omega
  have hdata : (build_mac n).data =
      ['b', '8', ':', 'a', 'd', ':', 'c', 'a', ':', 'f', 'e', ':',
        hexChar (n / 256 / 16 % 16), hexChar (n / 256 % 16), ':',
        hexChar (n % 256 / 16 % 16), hexChar (n % 256 % 16)] := by
    simp [build_mac, hex02, String.data_append]
  unfold macSuffixVal
  rw [hdata]
  simp only [List.drop]
  rw [h1, h4]
  rw [hexVal_hexChar h2, hexVal_hexChar h3, hexVal_hexChar h5, hexVal_hexChar h6]
  omega

/-- C7: for tap indices in `[0, 65535]`, `build_mac` renders the fixed OUI
`b8:ad:ca:fe` followed by the two lowercase-hex octets `N div 256` and
`N mod 256`; it is injective on that range and reaches every 16-bit suffix
(so it is a bijection onto the 16-bit suffix space), and the three example
values of the claim hold. -/
theorem claim_C7_build_mac :
    (∀ n : Nat, n < 65536 →
      build_mac n = "b8:ad:ca:fe:" ++ hex02 (n / 256) ++ ":" ++ hex02 (n % 256)) ∧
    (∀ m n : Nat, m < 65536 → n < 65536 → build_mac m = build_mac n → m = n) ∧
    (∀ hi lo : Nat, hi < 256 → lo < 256 →
      ∃ n : Nat, n < 65536 ∧
        build_mac n = "b8:ad:ca:fe:" ++ hex02 hi ++ ":" ++ hex02 lo) ∧
    build_mac 1 = "b8:ad:ca:fe:00:01" ∧
    build_mac 256 = "b8:ad:ca:fe:01:00" ∧
    build_mac 257 = "b8:ad:ca:fe:01:01" := by
  refine ⟨fun n _ => rfl, ?_, ?_, by decide, by decide, by decide⟩
  · intro m n hm hn h
    have := congrArg macSuffixVal h
    rwa [macSuffixVal_build_mac hm, macSuffixVal_build_mac hn] at this
  · intro hi lo hhi hlo
    refine ⟨hi * 256 + lo, by omega, ?_⟩
    have h1 : (hi * 256 + lo) / 256 = hi := by omega
    have h2 : (hi * 256 + lo) % 256 = lo := by omega
    unfold build_mac
    rw [h1, h2]

/-- Witness for C7: the surjectivity part applied at octets `(1, 2)`. -/
theorem claim_C7_build_mac_witness :
    ∃ n : Nat, n < 65536 ∧
      build_mac n = "b8:ad:ca:fe:" ++ hex02 1 ++ ":" ++ hex02 2 :=
  claim_C7_build_mac.2.2.1 1 2 (by decide) (by decide)

/-- C9: whenever the process-table query finds a matching process (`pgrep`
exits with status 0), `is_vm_running` raises an uncaught `AttributeError`
(the source calls `.decode("utf-8")` on stdout that is already a `str`
because the subprocess was run with `text=True`) instead of returning
`True`; a boolean is returned only on the no-match path where `pgrep` exits
with a nonzero status. -/
theorem claim_C9_is_vm_running_attribute_error :
    (∀ out : String,
      is_vm_running (.exited 0 out) = .raised .attributeError) ∧
    (∀ (rc : Nat) (out : String), rc ≠ 0 →
      is_vm_running (.exited rc out) = .ok false) := by
  constructor
  · intro out
    simp [is_vm_running]
  · intro rc out h
    simp [is_vm_running, h]

/-- Witness for C9: concrete instances at `pgrep` statuses 0 and 1. -/
theorem claim_C9_is_vm_running_attribute_error_witness :
    is_vm_running (.exited 0 "4242 qemu") = .raised .attributeError ∧
    is_vm_running (.exited 1 "") = .ok false :=
  ⟨claim_C9_is_vm_running_attribute_error.1 "4242 qemu",
   claim_C9_is_vm_running_attribute_error.2 1 "" (by decide)⟩

/-- C1 counterexample: when `pgrep` runs but terminates with its documented
fatal-error status 3 (the case in which the process table could not be
read), both probes return `.ok false` — an assumed resource-free answer —
instead of failing with a hard error, refuting the claim that an
unqueryable process table is never reported as a free resource. -/
theorem claim_C1_probe_counterexample :
    pgrepQueryFailed (.exited 3 "") ∧
    is_tap_in_use (.exited 3 "") = .ok false ∧
    is_vm_running (.exited 3 "") = .ok false := by
  refine ⟨by decide, by decide, by decide⟩

/-- C1 amended: both probes return `false` (not an error) on the `pgrep`
no-match status 1; when the `pgrep` binary itself cannot be run
(`FileNotFoundError` inside `run_subprocess`) the probe hard-fails by
terminating the run with exit status 1; but a `pgrep` failure status
(`2 ≤ rc`, e.g. an unreadable process table) is indistinguishable to the
code from no-match and also yields the assumed-free answer `false`. -/
theorem claim_C1_probe_amended :
    (∀ out : String, is_vm_running (.exited 1 out) = .ok false) ∧
    (∀ out : String, is_tap_in_use (.exited 1 out) = .ok false) ∧
    is_vm_running .toolMissing = .exited 1 ∧
    is_tap_in_use .toolMissing = .exited 1 ∧
    (∀ (rc : Nat) (out : String), 2 ≤ rc →
      is_vm_running (.exited rc out) = .ok false ∧
      is_tap_in_use (.exited rc out) = .ok false) := by
  refine ⟨fun out => by simp [is_vm_running], fun out => by simp [is_tap_in_use],
    rfl, rfl, ?_⟩
  intro rc out h
  have hrc : rc ≠ 0 := by omega
  constructor
  · simp [is_vm_running, hrc]
  · simp [is_tap_in_use, hrc]

/-- Witness for C1: the amended theorem applied at `pgrep` status 2 with
captured output "x". -/
theorem claim_C1_probe_amended_witness :
    is_vm_running (.exited 2 "x") = .ok false ∧
    is_tap_in_use (.exited 2 "x") = .ok false :=
  claim_C1_probe_amended.2.2.2.2 2 "x" (by decide)

theorem tapAddList_ok_eq (name : String) :
    ∀ (l seen s : List Int), tapAddList name seen l = .ok s → s = l.reverse ++ seen := by
  intro l
  induction l with
  | nil =>
      intro seen s h
      simp [tapAddList] at h
      simp [h]
  | cons t ts ih =>
      intro seen s h
      by_cases ht : t ∈ seen
      · simp [tapAddList, ht] at h
      · simp only [tapAddList, if_neg ht] at h
        have := ih (t :: seen) s h
        subst this
        simp

theorem tapAddList_ok_iff (name : String) :
    ∀ (l seen : List Int), seen.Nodup →
      ((∃ s, tapAddList name seen l = .ok s) ↔ (seen ++ l).Nodup) := by
  intro l
  induction l with
  | nil =>
      intro seen hseen
      simpa [tapAddList] using hseen
  | cons t ts ih =>
      intro seen hseen
      by_cases ht : t ∈ seen
      · simp only [tapAddList, if_pos ht]
        constructor
        · rintro ⟨s, hs⟩
          simp at hs
        · intro h
          exfalso
          rw [List.perm_middle.nodup_iff, List.nodup_cons] at h
          exact h.1 (List.mem_append_left _ ht)
      · simp only [tapAddList, if_neg ht]
        rw [ih (t :: seen) (List.nodup_cons.mpr ⟨ht, hseen⟩), List.cons_append]
        exact (List.perm_middle.nodup_iff).symm

theorem tapAddList_err_owner (name : String) :
    ∀ (l seen : List Int) (t : Int) (o : String),
      tapAddList name seen l = .error (.dup t o) → o = name := by
  intro l
  induction l with
  | nil =>
      intro seen t o h
      simp [tapAddList] at h
  | cons a ts ih =>
      intro seen t o h
      by_cases ha : a ∈ seen
      · simp [tapAddList, ha] at h
        exact h.2.symm
      · simp only [tapAddList, if_neg ha] at h
        exact ih _ _ _ h

theorem tapCheckGo_ok_iff :
    ∀ (vms : List Vm) (seen : List Int),
      (∀ vm ∈ vms, VmTapWF vm) → seen.Nodup →
      (tapCheckGo seen vms = .ok () ↔ (seen ++ allTaps vms).Nodup) := by
  intro vms
  induction vms with
  | nil =>
      intro seen _ hseen
      simpa [tapCheckGo, allTaps] using hseen
  | cons vm rest ih =>
      intro seen hWF hseen
      have hvm := hWF vm (List.mem_cons_self _ _)
      have hrest : ∀ v ∈ rest, VmTapWF v := fun v hv => hWF v (List.mem_cons_of_mem _ hv)
      by_cases hlw : vm.os = "linux" ∨ vm.os = "windows"
      · obtain ⟨t, ht⟩ : ∃ t, vm.tapnum = some t := by
          cases h : vm.tapnum with
          | none => exact absurd h (hvm.1 hlw)
          | some t => exact ⟨t, rfl⟩
        simp only [tapCheckGo, if_pos hlw, ht, allTaps, vmTaps]
        by_cases hts : t ∈ seen
        · rw [if_pos hts]
          constructor
          · intro h
            simp at h
          · intro h
            exfalso
            simp only [Option.toList_some, List.singleton_append] at h
            rw [List.perm_middle.nodup_iff, List.nodup_cons] at h
            exact h.1 (List.mem_append_left _ hts)
        · rw [if_neg hts,
            ih (t :: seen) hrest (List.nodup_cons.mpr ⟨hts, hseen⟩)]
          simp only [Option.toList_some, List.singleton_append, List.cons_append]
          exact (List.perm_middle.nodup_iff).symm
      · by_cases hix : vm.os = "iosxe"
        · obtain ⟨l, hl⟩ : ∃ l, vm.tapnumlist = some l := by
            cases h : vm.tapnumlist with
            | none => exact absurd h (hvm.2 hix)
            | some l => exact ⟨l, rfl⟩
          simp only [tapCheckGo, if_neg hlw, if_pos hix, hl, allTaps, vmTaps]
          by_cases hadd : (seen ++ l).Nodup
          · obtain ⟨s, hs⟩ := (tapAddList_ok_iff vm.vm_name l seen hseen).mpr hadd
            have hseq := tapAddList_ok_eq vm.vm_name l seen s hs
            have hsperm : s.Perm (seen ++ l) := by
              rw [hseq]
              exact ((l.reverse_perm.append_right seen).trans List.perm_append_comm)
            have hsnodup : s.Nodup := hsperm.nodup_iff.mpr hadd
            simp only [hs]
            rw [ih s hrest hsnodup]
            have hperm : (s ++ allTaps rest).Perm (seen ++ (l ++ allTaps rest)) := by
              rw [← List.append_assoc]
              exact hsperm.append_right _
            simpa using hperm.nodup_iff
          · cases h : tapAddList vm.vm_name seen l with
            | ok s =>
                exact absurd ((tapAddList_ok_iff vm.vm_name l seen hseen).mp ⟨s, h⟩) hadd
            | error e =>
                simp only [h]
                constructor
                · intro hcontra
                  simp at hcontra
                · intro hcontra
                  exfalso
                  apply hadd
                  have hbig : (seen ++ l ++ allTaps rest).Nodup := by
                    simpa [List.append_assoc] using hcontra
                  exact List.Nodup.sublist
                    (List.sublist_append_left (seen ++ l) (allTaps rest)) hbig
        · simp only [tapCheckGo, if_neg hlw, if_neg hix, allTaps, vmTaps]
          simpa using ih seen hrest hseen

theorem tapCheckGo_dup_owner :
    ∀ (vms : List Vm) (seen : List Int) (t : Int) (o : String),
      tapCheckGo seen vms = .error (.dup t o) → o ∈ vms.map Vm.vm_name := by
  intro vms
  induction vms with
  | nil =>
      intro seen t o h
      simp [tapCheckGo] at h
  | cons vm rest ih =>
      intro seen t o h
      by_cases hlw : vm.os = "linux" ∨ vm.os = "windows"
      · cases htap : vm.tapnum with
        | none =>
            simp only [tapCheckGo, if_pos hlw, htap] at h
            simp at h
        | some tn =>
            simp only [tapCheckGo, if_pos hlw, htap] at h
            by_cases hts : tn ∈ seen
            · rw [if_pos hts] at h
              simp at h
              simp [h.2]
            · rw [if_neg hts] at h
              exact List.mem_cons_of_mem _ (ih _ _ _ h)
      · by_cases hix : vm.os = "iosxe"
        · cases hl : vm.tapnumlist with
          | none =>
              simp only [tapCheckGo, if_neg hlw, if_pos hix, hl] at h
              simp at h
          | some l =>
              simp only [tapCheckGo, if_neg hlw, if_pos hix, hl] at h
              cases hadd : tapAddList vm.vm_name seen l with
              | ok s =>
                  simp only [hadd] at h
                  exact List.mem_cons_of_mem _ (ih _ _ _ h)
              | error e =>
                  simp only [hadd] at h
                  simp at h
                  subst h
                  have := tapAddList_err_owner vm.vm_name l seen t o hadd
                  simp [this]
        · simp only [tapCheckGo, if_neg hlw, if_neg hix] at h
          exact List.mem_cons_of_mem _ (ih _ _ _ h)

/-- C2 counterexample: with two linux declarations `vm-a` and `vm-b` both
claiming tap 1, validation does fail on the duplicate, but the error it
produces names only `vm-b` — the declaration at which the duplicate was
detected — and not both owning declarations (`vm-a` is absent from the
owners the error names and from the printed message). -/
theorem claim_C2_counterexample :
    check_unique_tapnums [c2VmA, c2VmB] = .error (.dup 1 "vm-b") ∧
    "vm-a" ∉ dupOwnersNamed (.dup 1 "vm-b") ∧
    dupErrMsg 1 "vm-b" = "Error: Duplicate tapnum 1 found for vm-b" := by
  refine ⟨rfl, by decide, rfl⟩

/-- C2 amended: validation fails whenever two declarations — including two
entries inside one iosxe declaration's tap-index list — claim the same tap
index, the comparison spanning the entire declaration set (it succeeds
exactly when the flattened tap list is duplicate-free); on failure the
error carries the tap index and names exactly one owning declaration (one
that declares that tap index), not both. -/
theorem claim_C2_check_unique_tapnums_amended :
    ∀ vms : List Vm, (∀ vm ∈ vms, VmTapWF vm) →
      ((check_unique_tapnums vms = .ok ()) ↔ (allTaps vms).Nodup) ∧
      (∀ t o, check_unique_tapnums vms = .error (.dup t o) →
        ¬(allTaps vms).Nodup ∧ o ∈ vms.map Vm.vm_name ∧
          dupOwnersNamed (.dup t o) = [o]) := by
  intro vms hWF
  have hiff := tapCheckGo_ok_iff vms [] hWF List.nodup_nil
  simp only [List.nil_append] at hiff
  refine ⟨hiff, ?_⟩
  intro t o herr
  refine ⟨?_, tapCheckGo_dup_owner vms [] t o herr, rfl⟩
  intro hnodup
  have := hiff.mpr hnodup
  rw [check_unique_tapnums] at herr
  rw [this] at herr
  simp at herr

/-- Witness for C2: the amended theorem applied to the single-declaration
set `[c2VmC]`, which is duplicate-free, so validation accepts it. -/
theorem claim_C2_check_unique_tapnums_amended_witness :
    check_unique_tapnums [c2VmC] = .ok () :=
  (claim_C2_check_unique_tapnums_amended [c2VmC] (by decide)).1.mpr (by decide)

/-- C5 counterexample: the live trunk list is compared with Python list
equality, not as a set — declared `[10, 20]` against live `[20, 10]` stages
the corrective command `trunks=[10,20]` instead of staging nothing; and the
staged command renders the declared list in declaration order, not in
ascending order (declared `[20, 10]` against live `[10, 20]` stages
`trunks=[20,10]`). -/
theorem claim_C5_trunk_counterexample :
    get_port_trunks "[20, 10]" = some [20, 10] ∧
    port_ovs_params c5Port c5Live = .ok ["trunks=[10,20]"] ∧
    port_ovs_params c5PortB c5LiveB = .ok ["trunks=[20,10]"] := by
  refine ⟨by decide, by decide, by decide⟩

/-- C5 amended: for a declared trunk port, the staged parameter list
contains a trunk-set command exactly when the parsed live trunk list
differs from the declared list under order-sensitive list equality (so an
exact match, including order, stages nothing), and any staged trunk-set
command renders the declared list in declaration order (not sorted). -/
theorem claim_C5_trunk_amended :
    ∀ (port : PortDecl) (live : LivePort) (ts : List Int),
      port.vlan_mode = "trunk" → port.trunks = some ts →
      ∃ params, port_ovs_params port live = .ok params ∧
        (get_port_trunks live.trunks_raw = some ts →
          ∀ s ∈ params, pyStartsWith s "trunks=" = false) ∧
        (get_port_trunks live.trunks_raw ≠ some ts →
          ("trunks=[" ++ String.intercalate "," (ts.map toString) ++ "]") ∈ params) ∧
        (∀ s ∈ params, pyStartsWith s "trunks=" = true →
          s = "trunks=[" ++ String.intercalate "," (ts.map toString) ++ "]") := by
  intro port live ts hmode htr
  have hform : port_ovs_params port live = .ok
      ((if pyStripChars ['"'] live.vlan_mode_raw ≠ "trunk" then
          ["vlan_mode=trunk", "tag=[]"] else []) ++
        (if get_port_trunks live.trunks_raw ≠ some ts then
          ["trunks=[" ++ String.intercalate "," (ts.map toString) ++ "]"]
        else [])) := by
    simp [port_ovs_params, hmode, htr]
  refine ⟨_, hform, ?_, ?_, ?_⟩
  · intro hcteq s hs
    have hnot : ¬(get_port_trunks live.trunks_raw ≠ some ts) :=
      fun hc => hc hcteq
    rw [if_neg hnot, List.append_nil] at hs
    split_ifs at hs with hcm
    · simp at hs
      rcases hs with rfl | rfl <;> decide
    · simp at hs
  · intro hctne
    rw [if_pos hctne]
    simp
  · intro s hs hpre
    rw [List.mem_append] at hs
    rcases hs with hs | hs
    · split_ifs at hs with hcm
      · simp at hs
        rcases hs with rfl | rfl <;> exact absurd hpre (by decide)
      · simp at hs
    · split_ifs at hs with hct
      · simpa using hs
      · simp at hs

/-- Witness for C5: the amended theorem applied to the declared trunk list
`[10, 20]` against the live raw value `[20, 10]`. -/
theorem claim_C5_trunk_amended_witness :
    ∃ params, port_ovs_params c5Port c5Live = .ok params ∧
      (get_port_trunks c5Live.trunks_raw = some [10, 20] →
        ∀ s ∈ params, pyStartsWith s "trunks=" = false) ∧
      (get_port_trunks c5Live.trunks_raw ≠ some [10, 20] →
        ("trunks=[" ++ String.intercalate "," ([10, 20].map toString) ++ "]") ∈ params) ∧
      (∀ s ∈ params, pyStartsWith s "trunks=" = true →
        s = "trunks=[" ++ String.intercalate "," ([10, 20].map toString) ++ "]") :=
  claim_C5_trunk_amended c5Port c5Live [10, 20] rfl rfl

/-- C8 counterexample: with a declaration whose first switch entry is
literally named `name`, the subscript `"name" == switch` evaluates to
`True` (index 1) for the switch name `name`, so `get_port_parameters`
returns the second entry's ports, not the first entry's — refuting the
claim that it always returns the first switch entry's port list for every
switch name. -/
theorem claim_C8_subscript_counterexample :
    get_port_parameters "name" c8Cfg = .ok [c8PortB] ∧
    [c8PortB] ≠ [c8PortA] ∧
    c8Cfg.switches.head? = some ⟨"name", [c8PortA]⟩ := by
  refine ⟨rfl, by decide, rfl⟩

/-- C8 amended: for every switch name other than the literal string
`name`, `get_port_parameters` indexes entry 0 and returns the first switch
entry's port list regardless of which switch was asked for; and
`get_switch_names` returns the comma-split name of only the last switch
entry. -/
theorem claim_C8_subscript_amended :
    (∀ (sw : String) (cfg : SwitchConfig) (s0 : SwDecl) (rest : List SwDecl),
      sw ≠ "name" → cfg.switches = s0 :: rest →
      get_port_parameters sw cfg = .ok s0.ports) ∧
    (∀ (cfg : SwitchConfig) (sN : SwDecl),
      cfg.switches.getLast? = some sN →
      get_switch_names cfg = .ok (pySplitOn sN.name ',')) := by
  constructor
  · intro sw cfg s0 rest hne hsw
    have h0 : ¬(("name" : String) = sw) := fun h => hne h.symm
    simp [get_port_parameters, hsw, if_neg h0]
  · intro cfg sN hlast
    simp [get_switch_names, hlast]

/-- Witness for C8: the amended theorem applied to `c8Cfg` for the switch
name `sw1` (so the configured switch `sw1` is reconciled against the first
entry's ports, which belong to the switch named `name`), and the last
entry's comma-split name. -/
theorem claim_C8_subscript_amended_witness :
    get_port_parameters "sw1" c8Cfg = .ok [c8PortA] ∧
    get_switch_names c8Cfg = .ok ["sw1"] := by
  exact ⟨claim_C8_subscript_amended.1 "sw1" c8Cfg ⟨"name", [c8PortA]⟩
      [⟨"sw1", [c8PortB]⟩] (by decide) rfl,
    claim_C8_subscript_amended.2 c8Cfg ⟨"sw1", [c8PortB]⟩ rfl⟩

/-- C6 counterexample: given identical live and declared state (access
mode, tag 10, empty trunk list), the database-protocol binding issues zero
attribute writes while the command-line binding still writes all three
attributes — the two bindings do not implement identical diff semantics and
their outputs are not interchangeable. -/
theorem claim_C6_tap_counterexample :
    set_tap (some c6Cur) "access" 10 [] = .ok [] ∧
    configure_tap "tap1" "access" (some 10) (some []) =
      .ok ["sudo", "ovs-vsctl", "set", "port", "tap1",
        "vlan_mode=access", "tag=10", "trunks=[]"] ∧
    cliAttrFields ["sudo", "ovs-vsctl", "set", "port", "tap1",
        "vlan_mode=access", "tag=10", "trunks=[]"] =
      ["vlan_mode", "tag", "trunks"] := by
  refine ⟨rfl, rfl, rfl⟩

/-- C6 amended: the two bindings differ.  For declared modes `access` and
`trunk`, the database binding `set_tap` writes only the differing fields
but never writes the trunk list (its trunk write is guarded by the literal
`"trunks"`, which no declared mode equals), while the command-line binding
`configure_tap` takes no live state and always emits all three attribute
assignments. -/
theorem claim_C6_tap_configurator_amended :
    (∀ (c : TapConf) (mode : String) (tag : Int) (trunks : List Int),
      mode = "access" ∨ mode = "trunk" →
      ∃ ws, set_tap (some c) mode tag trunks = .ok ws ∧
        (∀ l, TapWrite.setTrunks l ∉ ws) ∧
        (TapWrite.setMode mode ∈ ws ↔ c.vlan_mode ≠ mode) ∧
        (TapWrite.setTag tag ∈ ws ↔ (c.tag ≠ some tag ∧ mode = "access"))) ∧
    (∀ (name : String) (tag : Option Int) (trunks : Option (List Int)),
      configure_tap name "access" tag trunks =
        .ok (["sudo", "ovs-vsctl", "set", "port", name] ++
          ["vlan_mode=access", "tag=" ++ pyStrOfOptInt tag, "trunks=[]"]) ∧
      configure_tap name "trunk" tag trunks =
        .ok (["sudo", "ovs-vsctl", "set", "port", name] ++
          ["vlan_mode=trunk", "tag=" ++ pyStrOfOptInt tag,
            "trunks=" ++ pyStrOfOptIntList trunks])) := by
  constructor
  · intro c mode tag trunks hmode
    refine ⟨_, rfl, ?_, ?_, ?_⟩
    · intro l hl
      rcases hmode with h | h <;> subst h <;>
        [have hc3 : ¬(c.trunks ≠ trunks ∧ ("access" : String) = "trunks") :=
          fun h => absurd h.2 (by decide);
         have hc3 : ¬(c.trunks ≠ trunks ∧ ("trunk" : String) = "trunks") :=
          fun h => absurd h.2 (by decide)] <;>
        rw [if_neg hc3, List.append_nil, List.mem_append] at hl <;>
        rcases hl with hl | hl <;> split_ifs at hl <;> simp at hl
    · rcases hmode with h | h <;> subst h
      · have hc3 : ¬(c.trunks ≠ trunks ∧ ("access" : String) = "trunks") :=
          fun h => absurd h.2 (by decide)
        rw [if_neg hc3, List.append_nil]
        by_cases h1 : c.vlan_mode ≠ "access" <;>
          by_cases h2 : c.tag ≠ some tag ∧ ("access" : String) = "access" <;>
          simp [h1, h2]
      · have hc3 : ¬(c.trunks ≠ trunks ∧ ("trunk" : String) = "trunks") :=
          fun h => absurd h.2 (by decide)
        rw [if_neg hc3, List.append_nil]
        by_cases h1 : c.vlan_mode ≠ "trunk" <;>
          by_cases h2 : c.tag ≠ some tag ∧ ("trunk" : String) = "access" <;>
          simp [h1, h2]
    · rcases hmode with h | h <;> subst h
      · have hc3 : ¬(c.trunks ≠ trunks ∧ ("access" : String) = "trunks") :=
          fun h => absurd h.2 (by decide)
        rw [if_neg hc3, List.append_nil]
        by_cases h1 : c.vlan_mode ≠ "access" <;>
          by_cases h2 : c.tag ≠ some tag ∧ ("access" : String) = "access" <;>
          simp [h1, h2]
      · have hc3 : ¬(c.trunks ≠ trunks ∧ ("trunk" : String) = "trunks") :=
          fun h => absurd h.2 (by decide)
        rw [if_neg hc3, List.append_nil]
        have hta : ¬(("trunk" : String) = "access") := by decide
        by_cases h1 : c.vlan_mode ≠ "trunk" <;>
          by_cases h2 : c.tag ≠ some tag ∧ ("trunk" : String) = "access" <;>
          simp [h1, h2, hta]
  · intro name tag trunks
    constructor <;> rfl

/-- Witness for C6: the amended theorem's database-binding part applied to
the live state `c6Cur` with declared mode `trunk`, tag 7, trunks `[30]`. -/
theorem claim_C6_tap_configurator_amended_witness :
    ∃ ws, set_tap (some c6Cur) "trunk" 7 [30] = .ok ws ∧
      (∀ l, TapWrite.setTrunks l ∉ ws) ∧
      (TapWrite.setMode "trunk" ∈ ws ↔ c6Cur.vlan_mode ≠ "trunk") ∧
      (TapWrite.setTag 7 ∈ ws ↔ (c6Cur.tag ≠ some 7 ∧ "trunk" = "access")) :=
  claim_C6_tap_configurator_amended.1 c6Cur "trunk" 7 [30] (Or.inr rfl)

theorem run_bind_halt {ε α β : Type} (ev : List ε) (h : Halt) (f : α → Run ε β) :
    (⟨ev, .error h⟩ : Run ε α) >>= f = ⟨ev, .error h⟩ := rfl

theorem run_bind_ok {ε α β : Type} (ev : List ε) (a : α) (f : α → Run ε β) :
    (⟨ev, .ok a⟩ : Run ε α) >>= f = ⟨ev ++ (f a).events, (f a).result⟩ := rfl

theorem run_pure_def {ε α : Type} (a : α) :
    (pure a : Run ε α) = ⟨[], .ok a⟩ := rfl

theorem liftPy_ok {ε α : Type} (a : α) :
    (liftPy (.ok a) : Run ε α) = ⟨[], .ok a⟩ := rfl

theorem liftPy_exited {ε α : Type} (code : Nat) :
    (liftPy (.exited code) : Run ε α) = ⟨[], .error (.exit code)⟩ := rfl

theorem liftPy_raised {ε α : Type} (e : PyErr) :
    (liftPy (.raised e) : Run ε α) = ⟨[], .error (.exc e)⟩ := rfl

/-- C3 counterexample: a two-VM declaration set whose second declaration is
schema-invalid (memory 256).  The run copies the first VM's image, stages
its firmware and launches it — external mutations — and only then reports
the second declaration's schema violation and aborts: validation of the set
is not all-or-nothing with respect to external state. -/
theorem claim_C3_validation_counterexample :
    (lab_startup_main c3Env [c3VmOk, c3VmBad]).events =
      [.probeVm "vm-ok", .probeTap 1,
       .copyImageFile (MASTER_DIR ++ "/debian.qcow2") "vm-ok.qcow2",
       .linkUefiCode, .copyUefiVars "vm-ok",
       .launchVm [MASTER_DIR ++ "/scripts/ovs-startup.sh", "vm-ok.qcow2",
         "1024", "1", "linux"],
       .probeVm "vm-bad", .schemaError "vm-bad"] ∧
    (lab_startup_main c3Env [c3VmOk, c3VmBad]).result = .error (.exit 1) ∧
    ((lab_startup_main c3Env [c3VmOk, c3VmBad]).events.filter Ev.isMutation ≠ []) := by
  refine ⟨by decide, by decide, by decide⟩

/-- C3 amended: the duplicate-tap check is all-or-nothing — it runs before
the per-VM loop and its failure aborts the run with no mutation performed —
but per-VM schema validation runs inside the provisioning loop, so a
violation aborts before the offending VM's own mutations (shown here for
the first declaration) while earlier declarations of the set have already
been provisioned and launched. -/
theorem claim_C3_validation_amended :
    (∀ (env : Env) (vms : List Vm) (t : Int) (o : String),
      check_unique_tapnums vms = .error (.dup t o) →
      lab_startup_main env vms = ⟨[.dupTapError t o], .error (.exit 1)⟩) ∧
    (∀ (env : Env) (v : Vm) (rest : List Vm),
      check_unique_tapnums (v :: rest) = .ok () →
      env.pgrepVm v.vm_name = .exited 1 "" →
      check_yaml_declaration v = .exited 1 →
      lab_startup_main env (v :: rest) =
        ⟨[.probeVm v.vm_name, .schemaError v.vm_name], .error (.exit 1)⟩) := by
  constructor
  · intro env vms t o h
    unfold lab_startup_main
    rw [h]
  · intro env v rest hok hprobe hyaml
    unfold lab_startup_main
    rw [hok]
    simp only [vmLoop, hprobe, hyaml, is_vm_running, liftPy_ok, emit,
      run_bind_ok, run_bind_halt, run_pure_def, haltExit]
    simp [is_vm_running, liftPy, run_bind_ok, run_bind_halt, haltExit, emit]

/-- Witness for C3: the amended theorem applied to the duplicate set
`[c2VmA, c2VmB]` (both claim tap 1) in the environment `c3Env`, and to the
schema-invalid first declaration `c3VmBad`. -/
theorem claim_C3_validation_amended_witness :
    lab_startup_main c3Env [c2VmA, c2VmB] =
      ⟨[.dupTapError 1 "vm-b"], .error (.exit 1)⟩ ∧
    lab_startup_main c3Env [c3VmBad] =
      ⟨[.probeVm "vm-bad", .schemaError "vm-bad"], .error (.exit 1)⟩ :=
  ⟨claim_C3_validation_amended.1 c3Env [c2VmA, c2VmB] 1 "vm-b" (by decide),
   claim_C3_validation_amended.2 c3Env c3VmBad [] (by decide) rfl (by decide)⟩

/-- C4 counterexample: a VM whose declared tap is busy does not abort only
its own pipeline — `main` calls `sys.exit(1)`, so the sibling `vm-t2` is
never probed or processed; likewise a declared port that does not belong to
its declared switch makes `configure_switch_ports` exit the whole run, so
the sibling port `p2` is never reconciled. -/
theorem claim_C4_unit_boundary_counterexample :
    (lab_startup_main c4Env [c4Vm1, c4Vm2]).events =
      [.probeVm "vm-t1", .probeTap 7] ∧
    (lab_startup_main c4Env [c4Vm1, c4Vm2]).result = .error (.exit 1) ∧
    Ev.probeVm "vm-t2" ∉ (lab_startup_main c4Env [c4Vm1, c4Vm2]).events ∧
    (configure_switch_ports c4SwEnv "sw0" c4SwCfg).events =
      [.portToBridge "p1", .portMissing "p1"] ∧
    (configure_switch_ports c4SwEnv "sw0" c4SwCfg).result = .error (.exit 1) ∧
    SwEv.portToBridge "p2" ∉ (configure_switch_ports c4SwEnv "sw0" c4SwCfg).events := by
  refine ⟨by decide, by decide, by decide, by decide, by decide, by decide⟩

/-- C4 amended: a busy declared tap (`TapBusy`) aborts the entire run with
`sys.exit(1)` immediately after the tap probe — no remaining VM is
processed; and a declared port owned by a different bridge than its
declared switch is reported and aborts the entire reconciliation run — the
remaining ports are not reconciled. -/
theorem claim_C4_unit_boundary_amended :
    (∀ (env : Env) (v : Vm) (rest : List Vm) (t : Int) (s : String),
      check_unique_tapnums (v :: rest) = .ok () →
      env.pgrepVm v.vm_name = .exited 1 "" →
      check_yaml_declaration v = .ok () →
      v.os = "linux" ∨ v.os = "windows" →
      v.tapnum = some t →
      env.pgrepTap t = .exited 0 s →
      pySplitWs s ≠ [] →
      lab_startup_main env (v :: rest) =
        ⟨[.probeVm v.vm_name, .probeTap t], .error (.exit 1)⟩) ∧
    (∀ (env : SwEnv) (sw : String) (cfg : SwitchConfig) (s0 : SwDecl)
        (srest : List SwDecl) (p : PortDecl) (prest : List PortDecl) (br : String),
      sw ≠ "name" → cfg.switches = s0 :: srest → s0.ports = p :: prest →
      env.portBridge p.name = some br → br ≠ sw →
      configure_switch_ports env sw cfg =
        ⟨[.portToBridge p.name, .portMissing p.name], .error (.exit 1)⟩) := by
  constructor
  · intro env v rest t s hok hprobe hyaml hlw htap htapenv hne
    obtain ⟨w, ws, hsp⟩ := List.exists_cons_of_ne_nil hne
    unfold lab_startup_main
    rw [hok]
    simp [vmLoop, hprobe, hyaml, hlw, htap, htapenv, hsp, is_vm_running,
      is_tap_in_use, pyGet, liftPy, emit, run_bind_ok, run_bind_halt,
      run_pure_def, haltExit]
  · intro env sw cfg s0 srest p prest br hsw hswitches hports hbr hbrne
    have hname : ¬(("name" : String) = sw) := fun h => hsw h.symm
    unfold configure_switch_ports
    simp [get_port_parameters, hswitches, hname, hports, portLoop, hbr,
      hbrne, liftPy, emit, run_bind_ok, run_bind_halt, run_pure_def, haltExit]

/-- Witness for C4: the amended theorem applied to the busy-tap declaration
`c4Vm1` (with `c4Vm2` as the never-processed sibling) and to the misplaced
port `p1` of `c4SwCfg`. -/
theorem claim_C4_unit_boundary_amended_witness :
    lab_startup_main c4Env [c4Vm1, c4Vm2] =
      ⟨[.probeVm "vm-t1", .probeTap 7], .error (.exit 1)⟩ ∧
    configure_switch_ports c4SwEnv "sw0" c4SwCfg =
      ⟨[.portToBridge "p1", .portMissing "p1"], .error (.exit 1)⟩ :=
  ⟨claim_C4_unit_boundary_amended.1 c4Env c4Vm1 [c4Vm2] 7 "321\n" (by decide)
      (by decide) (by decide) (Or.inl rfl) (by decide) (by decide) (by decide),
   claim_C4_unit_boundary_amended.2 c4SwEnv "sw0" c4SwCfg
      ⟨"sw0", [⟨"p1", "access", some 10, none⟩, ⟨"p2", "access", some 10, none⟩]⟩
      [] ⟨"p1", "access", some 10, none⟩ [⟨"p2", "access", some 10, none⟩]
      "other" (by decide) rfl rfl rfl (by decide)⟩

/-- C10: whenever a schema-valid cloud-init block omits the optional
`hostname` key and a new seed must be built (no reusable seed image, or
`force_seed`), `create_cloud_init_seed_img` raises an uncaught `KeyError`
while building the metadata document — before any observable action — and
never converts the condition into a reported per-VM error. -/
theorem claim_C10_seed_hostname_keyerror :
    ∀ (env : Env) (vm : Vm) (ci : CloudInit),
      vm.cloud_init = some ci → ci.hostname = none →
      (ci.force_seed.getD false = true ∨
        env.fileExists (vm.vm_name ++ "-seed.img") = false) →
      create_cloud_init_seed_img env vm =
        ⟨[], .error (.exc (.keyError "hostname"))⟩ := by
  intro env vm ci hci hhost hbuild
  have hcond : ¬(¬(ci.force_seed.getD false = true) ∧
      env.fileExists (vm.vm_name ++ "-seed.img") = true) := by
    rcases hbuild with h | h
    · intro hc
      exact hc.1 h
    · intro hc
      rw [h] at hc
      exact absurd hc.2 (by simp)
  unfold create_cloud_init_seed_img
  simp only [hci]
  rw [if_neg hcond]
  simp [pyGet, hhost, liftPy, run_bind_halt, run_bind_ok]

/-- Witness for C10: the theorem applied to `c10Vm` (whose cloud-init block
has no hostname) in `c10Env` (no existing seed image). -/
theorem claim_C10_seed_hostname_keyerror_witness :
    create_cloud_init_seed_img c10Env c10Vm =
      ⟨[], .error (.exc (.keyError "hostname"))⟩ :=
  claim_C10_seed_hostname_keyerror c10Env c10Vm c10Ci rfl rfl (Or.inr rfl)

end Inetdoc
